import Mathlib

set_option maxRecDepth 8192

/-!
Verification development for the `vscode-sf-preflight` extension.

The definitions below are a shallow embedding of the JavaScript sources:

* `src/lib/shell.js` (snapshot embedded in `src/lib/ui.js`): `execCommand`,
  `execCommandFull`;
* `src/services/environment.js`: `checkJava`, `checkSalesforceCLI`,
  `checkNodeJS`;
* `src/services/packages.js`: `checkPackages`, `parsePackageOutput`;
* `src/services/sf-plugins.js`: `checkPlugins`;
* `src/provisioning/*`: the five provisioners and `ProvisioningManager`,
  with the registration order of `Extension.setupProvisioning` (extension
  snapshot in `src/lib/logger.js`);
* `runStartupCheck` from the environment service snapshot that carries the
  freshness-window logic.

External process execution is modelled by a runner function passed to each
probe; the workspace file system is an explicit association list; the
persisted key-value store is an explicit record.  JavaScript `undefined`
is modelled with `Option` (`none` = the field or return value is absent).
-/

-- ============================================================
-- String utilities mirroring the JavaScript string operations
-- ============================================================

/-- JavaScript `pat.isPrefixOf`-style check used to build `includes`:
`listStartsWith pat s` is true when `pat` is an initial segment of `s`. -/
def listStartsWith : List Char → List Char → Bool
  | [], _ => true
  | _ :: _, [] => false
  | p :: ps, c :: cs => p == c && listStartsWith ps cs

/-- JavaScript `String.prototype.includes` on char lists: substring
containment, i.e. the pattern starts the string at some position (the
empty pattern is contained in every string, as in JS). -/
def containsSub : List Char → List Char → Bool
  | [], pat => listStartsWith pat []
  | c :: rest, pat =>
    listStartsWith pat (c :: rest) || containsSub rest pat

/-- `String.prototype.includes`. -/
def strIncludes (s pat : String) : Bool :=
  containsSub s.data pat.data

/-- JavaScript `String.prototype.replace(pat, rep)` with a string pattern:
replaces only the FIRST occurrence of `pat`; if `pat` does not occur the
string is returned unchanged; an empty pattern is inserted at the front. -/
def replaceFirstSub (s pat rep : List Char) : List Char :=
  if listStartsWith pat s then rep ++ s.drop pat.length
  else
    match s with
    | [] => []
    | c :: rest => c :: replaceFirstSub rest pat rep

/-- `String.prototype.replace` (first occurrence only). -/
def strReplaceFirst (s pat rep : String) : String :=
  ⟨replaceFirstSub s.data pat.data rep.data⟩

/-- JavaScript `String.prototype.trim`: strip whitespace from both ends.
(Implemented over the character list; `String.trim` from the library is
semantically the same here but far costlier to evaluate in proofs.) -/
def jsTrim (s : String) : String :=
  ⟨((s.data.dropWhile (fun c => c.isWhitespace)).reverse.dropWhile
      (fun c => c.isWhitespace)).reverse⟩

/-- JavaScript `parseInt(s)` in base 10: skip leading whitespace, optional
sign, then the longest run of digits; `none` models `NaN`. -/
def parseIntJS (s : String) : Option Int :=
  let cs := s.data.dropWhile (fun c => c.isWhitespace)
  let signAndRest : Int × List Char :=
    match cs with
    | '-' :: rest => (-1, rest)
    | '+' :: rest => (1, rest)
    | _ => (1, cs)
  let digits := signAndRest.2.takeWhile (fun c => c.isDigit)
  if digits.isEmpty then none
  else
    some (signAndRest.1 *
      (Int.ofNat (digits.foldl (fun acc c => acc * 10 + (c.toNat - 48)) 0)))

-- ============================================================
-- Regex matchers used by the version probes
-- ============================================================

/-- The capture part of `/version "(.+?)"/`: lazily take at least one
non-newline character until the next `"`; `none` when no such (shortest)
capture exists at this position.  `.` does not match a newline, `.+?`
consumes as few characters as possible. -/
def captureLazy : List Char → Option (List Char)
  | [] => none
  | c :: rest =>
    if c == '\n' then none
    else
      match rest with
      | '"' :: _ => some [c]
      | _ => (captureLazy rest).map (fun t => c :: t)

/-- `stdout.match(/version "(.+?)"/)`: scan left to right for a position
where the literal `version "` matches and a lazy capture succeeds; on
failure at one position the scan resumes at the next character, as the
regex engine does. -/
def scanJavaVersion : List Char → Option (List Char)
  | [] => none
  | s@(_ :: rest) =>
    if listStartsWith ("version \"".data) s then
      match captureLazy (s.drop 9) with
      | some cap => some cap
      | none => scanJavaVersion rest
    else scanJavaVersion rest

/-- Greedy `\d+` followed by the rest of the input. -/
def takeDigits (cs : List Char) : List Char × List Char :=
  (cs.takeWhile (fun c => c.isDigit), cs.dropWhile (fun c => c.isDigit))

/-- The `(\d+\.\d+\.\d+)` capture at the current position. -/
def matchSemverAt (cs : List Char) : Option (List Char) :=
  let p1 := takeDigits cs
  if p1.1.isEmpty then none
  else
    match p1.2 with
    | '.' :: r2 =>
      let p2 := takeDigits r2
      if p2.1.isEmpty then none
      else
        match p2.2 with
        | '.' :: r3 =>
          let p3 := takeDigits r3
          if p3.1.isEmpty then none
          else some (p1.1 ++ '.' :: p2.1 ++ '.' :: p3.1)
        | _ => none
    | _ => none

/-- `stdout.match(/@salesforce\/cli\/(\d+\.\d+\.\d+)/)`: scan for the
literal `@salesforce/cli/` followed by a dotted numeric version. -/
def scanCliVersion : List Char → Option (List Char)
  | [] => none
  | s@(_ :: rest) =>
    if listStartsWith ("@salesforce/cli/".data) s then
      match matchSemverAt (s.drop 16) with
      | some cap => some cap
      | none => scanCliVersion rest
    else scanCliVersion rest

-- ============================================================
-- Process runner (src/lib/shell.js snapshot, and raw execAsync)
-- ============================================================

/-- Outcome of one external command, as `child_process.exec` delivers it:
either resolved stdout/stderr, or a rejection carrying a message and the
partially captured streams (`none` = the property is absent). -/
inductive ExecOutcome where
  | success (stdout stderr : String)
  | failure (message : String) (stdout stderr : Option String)
deriving Repr, DecidableEq

/-- A process runner: the external-process collaborator, one outcome per
command line. -/
def Runner := String → ExecOutcome

/-- `shell.execCommand`: returns trimmed stdout, and on failure throws an
error whose message is replaced by the captured stdout when that stdout is
a non-empty string (so callers can still pattern-match on output). -/
def execCommand (run : Runner) (cmd : String) : Except String String :=
  match run cmd with
  | .success out _ => .ok (jsTrim out)
  | .failure msg so _ =>
    .error (match so with
      | some s => if s == "" then msg else s
      | none => msg)

/-- `shell.execCommandFull`: never throws; substitutes best-effort trimmed
captured output (`error.stdout?.trim() || ""`,
`error.stderr?.trim() || error.message`). -/
def execCommandFull (run : Runner) (cmd : String) : String × String :=
  match run cmd with
  | .success out err => (jsTrim out, jsTrim err)
  | .failure msg so se =>
    ((match so with
      | some s => if jsTrim s == "" then "" else jsTrim s
      | none => ""),
     (match se with
      | some s => if jsTrim s == "" then msg else jsTrim s
      | none => msg))

-- ============================================================
-- Dependency probes (src/services/environment.js)
-- ============================================================

/-- `MIN_VERSIONS` from the constants module. -/
def MIN_VERSION_NODE : Int := 18

def MIN_VERSION_JAVA : Int := 11

/-- The structured record a version probe returns.  A `none` in an
`Option` field models the JavaScript object simply not having that
property (`undefined`), which is distinct from the property being
present with value `false`. -/
structure DependencyStatus where
  installed : Bool
  version : Option String := none
  majorVersion : Option Int := none
  valid : Option Bool := none
  path : Option (Option String) := none
  output : Option String := none
  error : Option String := none
deriving Repr, DecidableEq

/-- `getJavaPath`: `which java` / `where java`, first line of trimmed
output, `null` on failure.  (The platform choice of command is external;
the runner decides what the command returns.) -/
def getJavaPath (run : Runner) : Option String :=
  match run "which java" with
  | .success out _ => some (((jsTrim out).splitOn "\n").headD "")
  | .failure _ _ _ => none

/-- `checkJava` (src/services/environment.js lines 24-43): runs
`java -version 2>&1` through `execAsync`; if `/version "(.+?)"/` matches,
reports installed with the parsed major version compared against the
Java floor; if the command succeeds but the pattern does not match it
returns `{installed: false, valid: false}`; a rejected command yields
`{installed: false, valid: false, error: message}`. -/
def checkJava (run : Runner) : DependencyStatus :=
  match run "java -version 2>&1" with
  | .success stdout _ =>
    match scanJavaVersion stdout.data with
    | some cap =>
      let version : String := ⟨cap⟩
      let majorVersion := parseIntJS ((version.splitOn ".").headD "")
      { installed := true
        version := some version
        majorVersion := majorVersion
        valid := some (match majorVersion with
          | some m => decide (m ≥ MIN_VERSION_JAVA)
          | none => false)
        path := some (getJavaPath run) }
    | none => { installed := false, valid := some false }
  | .failure msg _ _ =>
    { installed := false, valid := some false, error := some msg }

/-- `checkSalesforceCLI` (src/services/environment.js lines 224-241): runs
`sf --version` through `execAsync`; a match of
`/@salesforce\/cli\/(\d+\.\d+\.\d+)/` gives the version; a successful
command without a match reports `installed: true, version: "unknown"`;
a rejected command yields `{installed: false, error: message}` — note the
record carries no `valid` property at all in either failure shape. -/
def checkSalesforceCLI (run : Runner) : DependencyStatus :=
  match run "sf --version" with
  | .success stdout _ =>
    match scanCliVersion stdout.data with
    | some cap =>
      { installed := true, version := some (⟨cap⟩ : String),
        output := some (jsTrim stdout) }
    | none =>
      { installed := true, version := some "unknown",
        output := some (jsTrim stdout) }
  | .failure msg _ _ =>
    { installed := false, error := some msg }

/-- `checkNodeJS`: runs `node --version`; strips the first `v` from the
trimmed output, parses the major version and compares with the Node
floor; there is no pattern check, so arbitrary output still reports
`installed: true`; a rejected command yields
`{installed: false, valid: false, error: message}`. -/
def checkNodeJS (run : Runner) : DependencyStatus :=
  match run "node --version" with
  | .success stdout _ =>
    let version := strReplaceFirst (jsTrim stdout) "v" ""
    let majorVersion := parseIntJS ((version.splitOn ".").headD "")
    { installed := true
      version := some version
      majorVersion := majorVersion
      valid := some (match majorVersion with
        | some m => decide (m ≥ MIN_VERSION_NODE)
        | none => false) }
  | .failure msg _ _ =>
    { installed := false, valid := some false, error := some msg }

-- ============================================================
-- Plugin-set and package-set probes
-- ============================================================

/-- `REQUIRED_PACKAGES` from the constants module. -/
def REQUIRED_PACKAGES : List String :=
  ["@salesforce/cli", "prettier", "@prettier/plugin-xml",
   "prettier-plugin-apex"]

/-- `REQUIRED_SF_PLUGINS` from the constants module. -/
def REQUIRED_SF_PLUGINS : List String :=
  ["@salesforce/sfdx-scanner", "code-analyzer"]

/-- The record the plugin-set and package-set probes return. -/
structure PluginStatus where
  installed : List String
  missing : List String
  allInstalled : Bool
  error : Option String := none
deriving Repr, DecidableEq

/-- The classification loop shared by both set probes: each required
identifier is checked for SUBSTRING containment in the raw output text. -/
def partitionRequired (required : List String) (out : String) :
    List String × List String :=
  match required with
  | [] => ([], [])
  | pkg :: rest =>
    let p := partitionRequired rest out
    if strIncludes out pkg then (pkg :: p.1, p.2) else (p.1, pkg :: p.2)

/-- `parsePackageOutput` (src/services/packages.js lines 38-64): classify
each required package by substring containment, then the one alias rule:
if `prettier-plugin-apex` ended up missing but
`@ilyamatsuev/prettier-plugin-apex` occurs in the text, remove it from
`missing` and record `prettier-plugin-apex (alternative)` as installed. -/
def parsePackageOutput (stdout : String) : PluginStatus :=
  let p := partitionRequired REQUIRED_PACKAGES stdout
  let aliasFires :=
    p.2.contains "prettier-plugin-apex" &&
      strIncludes stdout "@ilyamatsuev/prettier-plugin-apex"
  let installed :=
    if aliasFires then p.1 ++ ["prettier-plugin-apex (alternative)"] else p.1
  let missing :=
    if aliasFires then p.2.erase "prettier-plugin-apex" else p.2
  { installed := installed
    missing := missing
    allInstalled := missing.isEmpty }

/-- `checkPackages` (src/services/packages.js lines 21-31): runs the
global `npm list` through `shell.execCommand`; on failure it re-parses
the thrown message (which `execCommand` set to the captured stdout when
available) — the returned record never carries an `error` property. -/
def checkPackages (run : Runner) : PluginStatus :=
  match execCommand run
      ("npm list -g " ++ String.intercalate " " REQUIRED_PACKAGES
        ++ " 2>&1") with
  | .ok stdout => parsePackageOutput stdout
  | .error msg => parsePackageOutput msg

/-- `checkPlugins` (src/services/sf-plugins.js lines 14-41): runs
`sf plugins` through `shell.execCommand`; success classifies the two
required plugins by substring containment; failure returns the whole
required set as missing together with the error message. -/
def checkPlugins (run : Runner) : PluginStatus :=
  match execCommand run "sf plugins" with
  | .ok output =>
    let p := partitionRequired REQUIRED_SF_PLUGINS output
    { installed := p.1, missing := p.2, allInstalled := p.2.isEmpty }
  | .error msg =>
    { installed := [], missing := REQUIRED_SF_PLUGINS,
      allInstalled := false, error := some msg }

-- ============================================================
-- Workspace file system model
-- ============================================================

/-- The workspace file-system collaborator: an association list of file
paths (relative to the single workspace root) to their text content, plus
the set of directories explicitly created. -/
structure FileSystem where
  files : List (String × String) := []
  dirs : List String := []
deriving Repr, DecidableEq

/-- `vscode.workspace.fs.stat` succeeding on a file path. -/
def fsExists (fs : FileSystem) (p : String) : Bool :=
  fs.files.any (fun e => e.1 == p)

/-- `vscode.workspace.fs.readFile` (decoded as utf-8). -/
def fsRead (fs : FileSystem) (p : String) : Option String :=
  (fs.files.find? (fun e => e.1 == p)).map (fun e => e.2)

/-- `vscode.workspace.fs.writeFile`: create or overwrite. -/
def fsWrite (fs : FileSystem) (p c : String) : FileSystem :=
  { fs with files := (p, c) :: fs.files.filter (fun e => e.1 != p) }

/-- `vscode.workspace.fs.createDirectory` (idempotent). -/
def fsMkdir (fs : FileSystem) (d : String) : FileSystem :=
  { fs with dirs := if fs.dirs.contains d then fs.dirs else d :: fs.dirs }

/-- The workspace as a provisioner sees it.  `hasRoot = false` models
`vscode.workspace.workspaceFolders` being undefined (no workspace open);
with a root present, all provisioner paths are relative to it. -/
structure Ws where
  hasRoot : Bool
  fs : FileSystem
deriving Repr, DecidableEq

-- ============================================================
-- Configuration surface (sfPreflight.* settings)
-- ============================================================

/-- The `sfPreflight` configuration section: the master provisioning
switch, one switch per provisioner, and the optional template overrides
looked up by `Provisioner.getConfig`.  Template values are modelled as the
already-serialized text that ends up on disk (the source serializes
structured templates with `JSON.stringify(..., null, 2)`). -/
structure SfConfig where
  provisioningRunOnStartup : Bool := true
  prettierEnabled : Bool := true
  editorConfigEnabled : Bool := true
  gitIgnoreEnabled : Bool := true
  vscodeSettingsEnabled : Bool := true
  spellCheckerEnabled : Bool := true
  templatePrettierrc : Option String := none
  templatePrettierignore : Option String := none
  templateEditorConfig : Option String := none
  templateVsCodeSettings : Option String := none
deriving Repr, DecidableEq

/-- `Provisioner.getConfig(key, defaultValue)`: the override when the
setting is defined, the built-in default otherwise. -/
def getConfigOr (override : Option String) (dflt : String) : String :=
  override.getD dflt

-- ============================================================
-- Built-in templates (provisioning defaults)
-- ============================================================

/-- `JSON.stringify(STANDARD_PRETTIER_RC, null, 2)` — the text written to
`.prettierrc`. -/
def STANDARD_PRETTIER_RC_TEXT : String :=
  "\x7b\n  \"trailingComma\": \"none\",\n  \"singleQuote\": true,\n  \"printWidth\": 120,\n  \"tabWidth\": 2,\n  \"useTabs\": false,\n  \"overrides\": [\n    \x7b\n      \"files\": \"**/lwc/**/*.html\",\n      \"options\": \x7b\n        \"parser\": \"lwc\"\n      \x7d\n    \x7d,\n    \x7b\n      \"files\": \"*.\x7bcmp,page,component\x7d\",\n      \"options\": \x7b\n        \"parser\": \"html\"\n      \x7d\n    \x7d\n  ],\n  \"plugins\": [\n    \"prettier-plugin-apex\"\n  ]\n\x7d"

/-- `STANDARD_PRETTIER_IGNORE.trim()` — the text written to
`.prettierignore`. -/
def STANDARD_PRETTIER_IGNORE_TEXT : String :=
  "# .prettierignore\n.sf/\n.sfdx/\n.localdevserver/\ndist/\nnode_modules/\ncoverage/\n.DS_Store\npackage-lock.json"

/-- `STANDARD_EDITOR_CONFIG.trim()` — the text written to
`.editorconfig`. -/
def STANDARD_EDITOR_CONFIG_TEXT : String :=
  "# EditorConfig is awesome: https://EditorConfig.org\n\n# top-most EditorConfig file\nroot = true\n\n[*]\nend_of_line = lf\ncharset = utf-8\ntrim_trailing_whitespace = true\ninsert_final_newline = true\nindent_style = space\nindent_size = 2\n\n[*.\x7bcmp,page,component\x7d]\nindent_style = space\nindent_size = 2\n\n[*.\x7bhtml,js,json,md,ts,yaml,yml\x7d]\nindent_style = space\nindent_size = 2"

/-- `STANDARD_GITIGNORE_CONTENT.trim()` — the text written to
`.gitignore`. -/
def STANDARD_GITIGNORE_TEXT : String :=
  "# .gitignore for Salesforce DX Projects\n\n# Salesforce / SFDX\n.sf/\n.sfdx/\n.localdevserver/\n.settings/\n\n# OS Junk\n.DS_Store\nThumbs.db\n.spotlight-V100\n.Trashes\nehthumbs.db\nDesktop.ini\n\n# Node.js\nnode_modules/\nnpm-debug.log\nyarn-error.log\n\n# Build / Distribution\ndist/\nbuild/\nout/\ncoverage/\n\n# Environment\n.env\n.env.local"

/-- `JSON.stringify(STANDARD_VSCODE_SETTINGS, null, 2)`.  (Because of the
undeclared-variable fault in `VsCodeSettingsProvisioner.execute`, this
text is in fact never written; see `vsCodeSettingsExecute`.) -/
def STANDARD_VSCODE_SETTINGS_TEXT : String :=
  "\x7b\n  \"search.exclude\": \x7b\n    \"**/node_modules\": true,\n    \"**/dist\": true,\n    \"**/coverage\": true,\n    \"**/.sf\": true,\n    \"**/.sfdx\": true\n  \x7d,\n  \"files.exclude\": \x7b\n    \"**/.sf\": true,\n    \"**/.sfdx\": true\n  \x7d,\n  \"salesforcedx-vscode-core.push-or-deploy-on-save.enabled\": false,\n  \"editor.formatOnSave\": true\n\x7d"

/-- `SALESFORCE_TERMS`: the fixed dictionary text.  The spec declares the
byte-exact template contents an external collaborator (section 4.4); a
representative initial portion of the roughly 290-line dictionary stands
in for the full text, whose bytes no claim observes. -/
def SALESFORCE_TERMS : String :=
  "# --- Core Platform Terms and Acronyms ---\nSalesforce\nForce.com\nsObject\nsObjects\nOrg\nOrgs\nSandbox\nSandboxes\nMetadata\nTooling\nMultitenancy\nDML\nSOQL\nSOSL\nSLDS\nCRM\nSaaS\nPaaS\nAppExchange\nTrailhead\nOhana\nsfdc\n"

/-- The value of the `badRegex` string in
`SpellCheckerProvisioner.execute`: the legacy, incorrectly grouped
Salesforce-id ignore pattern searched for in an existing `cspell.json`. -/
def CSPELL_BAD_REGEX : String :=
  "/\\\\b[a-zA-Z0-9]\x7b15\x7d|[a-zA-Z0-9]\x7b18\x7d\\\\b/"

/-- The value of the `goodRegex` replacement string. -/
def CSPELL_GOOD_REGEX : String :=
  "/\\\\b[a-zA-Z0-9]\x7b15\x7d\\\\b|\\\\b[a-zA-Z0-9]\x7b18\x7d\\\\b/"

/-- `JSON.stringify(defaultConfig, null, 2)` for the spell-checker
default config — the text written to a fresh `cspell.json`.  Its
`ignoreRegExpList` entry serializes to the corrected pattern. -/
def CSPELL_DEFAULT_TEXT : String :=
  "\x7b\n  \"version\": \"0.2\",\n  \"language\": \"en\",\n  \"dictionaryDefinitions\": [\n    \x7b\n      \"name\": \"salesforce-terms\",\n      \"path\": \"./.cspell/salesforce-terms.txt\",\n      \"addWords\": true\n    \x7d\n  ],\n  \"dictionaries\": [\n    \"salesforce-terms\"\n  ],\n  \"ignorePaths\": [\n    \".sf/**\",\n    \".sfdx/**\",\n    \"**/node_modules/**\",\n    \"**/*.min.js\",\n    \"**/*.map\"\n  ],\n  \"ignoreRegExpList\": [\n    \"/\\\\b[a-zA-Z0-9]\x7b15\x7d\\\\b|\\\\b[a-zA-Z0-9]\x7b18\x7d\\\\b/\"\n  ]\n\x7d"

-- ============================================================
-- The five provisioners (execute methods)
-- ============================================================

/-- Result of one `execute` call: `.error` models an exception escaping
the provisioner; `.ok none` models the JavaScript call resolving to
`undefined` (no return statement reached); `.ok (some paths)` models a
returned array of relative paths. -/
abbrev ExecValue := Except Unit (Option (List String))

/-- `PrettierProvisioner.execute` (src/provisioning/prettier): NOTE the
source reads `vscode.workspace.workspaceFolders[0].uri` without a guard,
so with no workspace folders it throws a TypeError instead of returning;
otherwise two independent create-if-missing-or-forced writes. -/
def prettierExecute (cfg : SfConfig) (force : Bool) (w : Ws) :
    ExecValue × Ws :=
  if !w.hasRoot then (.error (), w)
  else
    let createRc := force || !(fsExists w.fs ".prettierrc")
    let st1 :=
      if createRc then
        (fsWrite w.fs ".prettierrc"
          (getConfigOr cfg.templatePrettierrc STANDARD_PRETTIER_RC_TEXT),
         [".prettierrc"])
      else (w.fs, ([] : List String))
    let createIgnore := force || !(fsExists st1.1 ".prettierignore")
    let st2 :=
      if createIgnore then
        (fsWrite st1.1 ".prettierignore"
          (jsTrim (getConfigOr cfg.templatePrettierignore
              STANDARD_PRETTIER_IGNORE_TEXT)),
         st1.2 ++ [".prettierignore"])
      else st1
    (.ok (some st2.2), { w with fs := st2.1 })

/-- `EditorConfigProvisioner.execute`: the repository's snapshot that
matches the current base-class contract (`execute(force)` returning the
written paths; carried alongside `standardGitIgnore.js`): guard on
missing workspace folders, then one create-if-missing-or-forced write. -/
def editorConfigExecute (cfg : SfConfig) (force : Bool) (w : Ws) :
    ExecValue × Ws :=
  if !w.hasRoot then (.ok (some []), w)
  else
    let create := force || !(fsExists w.fs ".editorconfig")
    let content :=
      jsTrim (getConfigOr cfg.templateEditorConfig STANDARD_EDITOR_CONFIG_TEXT)
    if create then
      (.ok (some [".editorconfig"]),
       { w with fs := fsWrite w.fs ".editorconfig" content })
    else (.ok (some []), w)

/-- `GitIgnoreProvisioner.execute` (src/provisioning/gitIgnore): guard on
missing or empty workspace folders; in non-force mode an existing
`.gitignore` returns `[]` early; otherwise the template is written. -/
def gitIgnoreExecute (force : Bool) (w : Ws) : ExecValue × Ws :=
  if !w.hasRoot then (.ok (some []), w)
  else if force then
    (.ok (some [".gitignore"]),
     { w with fs := fsWrite w.fs ".gitignore" STANDARD_GITIGNORE_TEXT })
  else if fsExists w.fs ".gitignore" then (.ok (some []), w)
  else
    (.ok (some [".gitignore"]),
     { w with fs := fsWrite w.fs ".gitignore" STANDARD_GITIGNORE_TEXT })

/-- `VsCodeSettingsProvisioner.execute` (src/provisioning/vscode): the
source method is declared `execute()` with NO parameter, yet its body
reads `force` (`let create = force;`).  After the guarded
`createDirectory(".vscode")`, that read raises a ReferenceError which the
method's own try/catch swallows, falling through to `return []`.  So the
call never writes `.vscode/settings.json`: it only ensures the `.vscode`
directory exists and returns an empty array.  (On a missing workspace it
is `return;`, i.e. undefined.) -/
def vsCodeSettingsExecute (_cfg : SfConfig) (_force : Bool) (w : Ws) :
    ExecValue × Ws :=
  if !w.hasRoot then (.ok none, w)
  else (.ok (some []), { w with fs := fsMkdir w.fs ".vscode" })

/-- The body of `SpellCheckerProvisioner.execute` past the workspace
guard, returning BOTH the `createdFiles` array the source accumulates and
the resulting file system.  Steps: decide create-vs-keep for
`cspell.json`; on an existing non-forced config run the legacy-regex
migration (first-occurrence textual replace, recording
`cspell.json (migrated)`); write the default config when creating; then
create the dictionary (directory first) when missing or forced — the
dictionary write records no path. -/
def spellCheckerCore (force : Bool) (fs : FileSystem) :
    List String × FileSystem :=
  let createConfig := force || !(fsExists fs "cspell.json")
  let mig :=
    if !createConfig && !force then
      match fsRead fs "cspell.json" with
      | some fileString =>
        if strIncludes fileString CSPELL_BAD_REGEX then
          (fsWrite fs "cspell.json"
            (strReplaceFirst fileString CSPELL_BAD_REGEX CSPELL_GOOD_REGEX),
           ["cspell.json (migrated)"])
        else (fs, ([] : List String))
      | none => (fs, [])
    else (fs, [])
  let st2 :=
    if createConfig then
      (fsWrite mig.1 "cspell.json" CSPELL_DEFAULT_TEXT,
       mig.2 ++ ["cspell.json"])
    else mig
  let createDict := force || !(fsExists st2.1 ".cspell/salesforce-terms.txt")
  let fs3 :=
    if createDict then
      fsWrite (fsMkdir st2.1 ".cspell") ".cspell/salesforce-terms.txt"
        SALESFORCE_TERMS
    else st2.1
  (st2.2, fs3)

/-- `SpellCheckerProvisioner.execute` (src/provisioning/spellChecker):
with no workspace it returns `[]`; otherwise it performs the work of
`spellCheckerCore` but — in the source — falls off the end of the method
WITHOUT returning the accumulated `createdFiles`, so the call resolves to
`undefined` (modelled as `.ok none`). -/
def spellCheckerExecute (force : Bool) (w : Ws) : ExecValue × Ws :=
  if !w.hasRoot then (.ok (some []), w)
  else (.ok none, { w with fs := (spellCheckerCore force w.fs).2 })

-- ============================================================
-- Provisioning orchestrator (src/provisioning/ProvisioningManager.js)
-- ============================================================

/-- A registered provisioner as the manager sees it: the value of its
`isEnabled()` (master switch AND its own switch, both evaluated against
the configuration) and its `execute` method. -/
structure ProvisionerI where
  enabled : Bool
  execute : Bool → Ws → ExecValue × Ws

/-- One iteration of the manager loop for a single provisioner: a
disabled provisioner is skipped; an exception from `execute` is caught
(and logged), contributing no paths but keeping whatever state mutation
already happened; a returned array is the contribution; an `undefined`
return fails the `Array.isArray` test and contributes nothing. -/
def provStep (p : ProvisionerI) (force : Bool) (w : Ws) : List String × Ws :=
  if p.enabled then
    match p.execute force w with
    | (.ok (some files), w2) => (files, w2)
    | (.ok none, w2) => (([] : List String), w2)
    | (.error _, w2) => (([] : List String), w2)
  else (([] : List String), w)

/-- `ProvisioningManager.runProvisioning` (lines 56-85): iterate the
registered provisioners in order, threading the workspace state and
appending each contribution to the aggregate change set. -/
def runProvisioning : List ProvisionerI → Bool → Ws → List String × Ws
  | [], _, w => ([], w)
  | p :: rest, force, w =>
    ((provStep p force w).1 ++
       (runProvisioning rest force (provStep p force w).2).1,
     (runProvisioning rest force (provStep p force w).2).2)

/-- The registered provisioner list for a given configuration, as
`Extension.setupProvisioning` builds it (the extension snapshot carried
in `src/lib/logger.js`, lines 148-164): one `registerProvisioner` call
per kind, in registration order SpellChecker, GitIgnore, Prettier,
EditorConfig, VsCodeSettings, with `isEnabled` as in the base class
(master switch AND the provisioner's own switch). -/
def allProvisioners (cfg : SfConfig) : List ProvisionerI :=
  [⟨cfg.provisioningRunOnStartup && cfg.spellCheckerEnabled,
      spellCheckerExecute⟩,
   ⟨cfg.provisioningRunOnStartup && cfg.gitIgnoreEnabled,
      gitIgnoreExecute⟩,
   ⟨cfg.provisioningRunOnStartup && cfg.prettierEnabled,
      prettierExecute cfg⟩,
   ⟨cfg.provisioningRunOnStartup && cfg.editorConfigEnabled,
      editorConfigExecute cfg⟩,
   ⟨cfg.provisioningRunOnStartup && cfg.vscodeSettingsEnabled,
      vsCodeSettingsExecute cfg⟩]

/-- `ProvisioningManager.runOnStartup`: the full registered list with
`force = false`.  The summary notification only reports the aggregate
and is not modelled. -/
def runOnStartup (cfg : SfConfig) (w : Ws) : List String × Ws :=
  runProvisioning (allProvisioners cfg) false w

-- ============================================================
-- Persisted preflight state and startup policy
-- (runStartupCheck, src/unnamed/part_001 lines 599-660)
-- ============================================================

/-- The persisted key-value state (`context.globalState`) as the startup
policy reads and writes it.  `none` models a key that was never written
(`globalState.get` returning undefined). -/
structure GlobalState where
  envCheckPassed : Option Bool := none
  envCheckTimestamp : Option Int := none
  envCheckCompleted : Option Bool := none
deriving Repr, DecidableEq

/-- JavaScript truthiness of an optional boolean (undefined is falsy). -/
def truthyOB : Option Bool → Bool
  | some b => b
  | none => false

/-- The aggregate result of one silent probing pass of `runHealthCheck`
in the snapshot with package and plugin probes.  The probes themselves
run external commands, so one pass's outcome enters the startup policy as
this record.  (`projectInfo` plays no part in any startup branch and is
not carried.) -/
structure HealthResults where
  java : DependencyStatus
  node : DependencyStatus
  salesforceCLI : DependencyStatus
  packages : PluginStatus
  sfPlugins : PluginStatus
  isSFDXProject : Bool := false
deriving Repr, DecidableEq

inductive Severity where
  | errorSev
  | warningSev
  | infoSev
deriving Repr, DecidableEq

/-- Interactive UI surfaces the startup policy can open: the rendered
health-check summary message (with its severity) and the lightweight
"Missing critical dependencies. Run environment check?" prompt.  The
non-interactive progress toast of a silent check is not an interactive
prompt and is not recorded. -/
inductive UiEvent where
  | healthSummary (sev : Severity)
  | criticalPrompt
deriving Repr, DecidableEq

inductive StateKey where
  | envCheckPassed
  | envCheckTimestamp
  | envCheckCompleted
deriving Repr, DecidableEq

inductive StateVal where
  | bv (b : Bool)
  | iv (t : Int)
deriving Repr, DecidableEq

/-- One observable step of a startup run: a persisted-state write
(`globalState.update`) or an interactive UI event, in program order. -/
inductive TraceItem where
  | write (k : StateKey) (v : StateVal)
  | event (e : UiEvent)
deriving Repr, DecidableEq

/-- The severity `displayHealthCheckResults` renders: an error message
when any issue line exists (Node or the CLI not installed), a warning
message when only warning lines exist (Node below floor, Java missing or
below floor, missing packages or plugins), an info message otherwise. -/
def displaySeverity (r : HealthResults) : Severity :=
  let issues := !r.node.installed || !r.salesforceCLI.installed
  let warnings :=
    (r.node.installed && !(truthyOB r.node.valid)) ||
    !r.java.installed ||
    (r.java.installed && !(truthyOB r.java.valid)) ||
    !r.packages.allInstalled || !r.sfPlugins.allInstalled
  if issues then .errorSev else if warnings then .warningSev else .infoSev

/-- `runHealthCheck(silent)` given the outcome of its probing pass: the
result is returned in both modes; only a non-silent call renders the
summary.  (The "Fix Issues" follow-up only chains further remediation
prompts and one confirming re-check; no claim depends on it and it is
not modelled.) -/
def runHealthCheckM (probes : HealthResults) (silent : Bool) :
    HealthResults × List UiEvent :=
  (probes, if silent then [] else [UiEvent.healthSummary (displaySeverity probes)])

/-- `hasCriticalIssues` in `runStartupCheck`: the CLI or Node missing, or
an incomplete package or plugin set.  (`results.packages` and
`results.sfPlugins` are always records, hence always truthy, so the
source's `results.packages && !...` reduces to the right conjunct.) -/
def hasCriticalIssues (r : HealthResults) : Bool :=
  !r.salesforceCLI.installed || !r.node.installed ||
  !r.packages.allInstalled || !r.sfPlugins.allInstalled

/-- `hasWarnings` in `runStartupCheck`. -/
def hasWarnings (r : HealthResults) : Bool :=
  !(truthyOB r.node.valid) || !r.java.installed || !(truthyOB r.java.valid)

/-- The freshness-window fast-path test: the persisted flag and timestamp
are both truthy (a stored `false`, a missing key, and a zero timestamp
are all falsy) and the elapsed time is below the window.
`TIME_INTERVALS.RECHECK_AFTER_SUCCESS` is not under `src/`, so the window
length is a parameter. -/
def startupFastPath (window : Int) (gs : GlobalState) (now : Int) : Bool :=
  truthyOB gs.envCheckPassed &&
    match gs.envCheckTimestamp with
    | some ts => decide (ts ≠ 0) && decide (now - ts < window)
    | none => false

/-- `runStartupCheck` (src/unnamed/part_001 lines 599-660).  Arguments:
the freshness window, the persisted state, the current time, the outcome
of one silent probing pass, and the user's answer to the "Check Now"
prompt.  Returns the health result, the final persisted state, and the
ordered trace of state writes and interactive UI events:

* fast path (last check passed, fresh): silently re-probe, no writes, no
  interactive UI;
* issues or warnings: write `envCheckPassed := false` first; then with no
  completed check on record run the full visible check and write
  `envCheckCompleted := true`; with a record and critical issues show the
  lightweight prompt (full check only on "Check Now"); with warnings
  only, nothing further;
* all clean: write passed flag, timestamp, and completed marker. -/
def runStartupCheck (window : Int) (gs : GlobalState) (now : Int)
    (probes : HealthResults) (checkNow : Bool) :
    HealthResults × GlobalState × List TraceItem :=
  if startupFastPath window gs now then ((runHealthCheckM probes true).1, gs, [])
  else
    let results := (runHealthCheckM probes true).1
    if hasCriticalIssues results || hasWarnings results then
      let gs1 := { gs with envCheckPassed := some false }
      let t1 : List TraceItem := [.write .envCheckPassed (.bv false)]
      if !(truthyOB gs.envCheckCompleted) then
        (results, { gs1 with envCheckCompleted := some true },
         t1 ++ (runHealthCheckM results false).2.map .event
            ++ [.write .envCheckCompleted (.bv true)])
      else if hasCriticalIssues results then
        (results, gs1,
         t1 ++ [.event .criticalPrompt] ++
           (if checkNow then (runHealthCheckM results false).2.map .event
            else []))
      else (results, gs1, t1)
    else
      (results,
       { gs with envCheckPassed := some true, envCheckTimestamp := some now,
                 envCheckCompleted := some true },
       [.write .envCheckPassed (.bv true),
        .write .envCheckTimestamp (.iv now),
        .write .envCheckCompleted (.bv true)])

-- ============================================================
-- Concrete inputs used by witnesses and counterexamples
-- ============================================================

/-- A process runner that fails every command with a bare message and no
captured output — the always-failing Process Runner stub. -/
def failRunner : Runner := fun _ => ExecOutcome.failure "boom" none none

/-- A runner whose every command succeeds with output `foo` (which
matches neither version pattern). -/
def fooRunner : Runner := fun _ => ExecOutcome.success "foo" ""

/-- An empty single-root workspace. -/
def wEmpty : Ws := { hasRoot := true, fs := {} }

/-- A healthy dependency record. -/
def depOk : DependencyStatus :=
  { installed := true, version := some "20.0.0", majorVersion := some 20,
    valid := some true }

/-- A complete plugin or package set. -/
def setOk : PluginStatus :=
  { installed := REQUIRED_SF_PLUGINS, missing := [], allInstalled := true }

/-- A warnings-only probing outcome: Java absent, everything else fine. -/
def warnOnlyResults : HealthResults :=
  { java := { installed := false, valid := some false }
    node := depOk
    salesforceCLI := { installed := true, version := some "2.0.0" }
    packages := setOk
    sfPlugins := setOk }

/-- A persisted state recording a fresh passed check. -/
def gsFresh : GlobalState :=
  { envCheckPassed := some true, envCheckTimestamp := some 100,
    envCheckCompleted := some true }

/-- A provisioner whose execute returns one path and leaves the workspace
unchanged. -/
def provA : ProvisionerI := ⟨true, fun _ w => (.ok (some ["a.txt"]), w)⟩

/-- A provisioner whose execute always throws. -/
def provThrow : ProvisionerI := ⟨true, fun _ w => (.error (), w)⟩

/-- A provisioner whose execute returns one path and leaves the workspace
unchanged. -/
def provC : ProvisionerI := ⟨true, fun _ w => (.ok (some ["c.txt"]), w)⟩

/-- Surrounding text of an existing `cspell.json` that carries the legacy
pattern in its `ignoreRegExpList`. -/
def c6Pre : String := "\x7b\n  \"version\": \"0.2\",\n  \"ignoreRegExpList\": [\n    \""

def c6Suf : String := "\"\n  ]\n\x7d"

/-- An existing spell-checker config containing the legacy bad-regex
literal. -/
def c6Content : String := c6Pre ++ CSPELL_BAD_REGEX ++ c6Suf

/-- A workspace whose root already holds that config (and nothing else). -/
def c6Fs : FileSystem := { files := [("cspell.json", c6Content)], dirs := [] }

-- ============================================================
-- Helper lemmas
-- ============================================================

/-- A pattern matching an empty string is empty. -/
theorem startsWith_nil (q : List Char) (h : listStartsWith q [] = true) :
    q = [] := by
  cases q with
  | nil => rfl
  | cons _ _ => simp [listStartsWith] at h

/-- A pattern that starts a string occurs in it. -/
theorem containsSub_of_startsWith (q s : List Char)
    (h : listStartsWith q s = true) : containsSub s q = true := by
  cases s with
  | nil => exact h
  | cons c cs => simp [containsSub, h]

/-- If a concatenated pattern starts a string, its right part occurs in
the string. -/
theorem containsSub_of_startsWith_append (a b s : List Char)
    (h : listStartsWith (a ++ b) s = true) : containsSub s b = true := by
  induction a generalizing s with
  | nil => exact containsSub_of_startsWith b s h
  | cons p ps ih =>
    cases s with
    | nil => simp [listStartsWith] at h
    | cons c cs =>
      simp only [List.cons_append, listStartsWith, Bool.and_eq_true] at h
      simp [containsSub, ih cs h.2]

/-- If a concatenated pattern starts a string, so does its left part. -/
theorem startsWith_append_left (a b s : List Char)
    (h : listStartsWith (a ++ b) s = true) : listStartsWith a s = true := by
  induction a generalizing s with
  | nil => rfl
  | cons p ps ih =>
    cases s with
    | nil => simp [listStartsWith] at h
    | cons c cs =>
      simp only [List.cons_append, listStartsWith, Bool.and_eq_true] at h
      simp only [listStartsWith, Bool.and_eq_true]
      exact ⟨h.1, ih cs h.2⟩

/-- Substring containment of a concatenation gives containment of the
left part. -/
theorem containsSub_append_left (s a b : List Char)
    (h : containsSub s (a ++ b) = true) : containsSub s a = true := by
  induction s with
  | nil =>
    simp only [containsSub] at h ⊢
    exact startsWith_append_left a b [] h
  | cons c cs ih =>
    simp only [containsSub, Bool.or_eq_true] at h
    rcases h with h1 | h2
    · exact containsSub_of_startsWith a (c :: cs)
        (startsWith_append_left a b _ h1)
    · simp [containsSub, ih h2]

/-- Substring containment of a concatenation gives containment of the
right part. -/
theorem containsSub_append_right (s a b : List Char)
    (h : containsSub s (a ++ b) = true) : containsSub s b = true := by
  induction s with
  | nil =>
    simp only [containsSub] at h ⊢
    have hb : b = [] := (List.append_eq_nil.mp (startsWith_nil _ h)).2
    subst hb
    rfl
  | cons c cs ih =>
    simp only [containsSub, Bool.or_eq_true] at h
    rcases h with h1 | h2
    · exact containsSub_of_startsWith_append a b _ h1
    · simp [containsSub, ih h2]

/-- Running a concatenation of registered lists runs the first list, then
the second from the state the first left behind, concatenating the
aggregated paths. -/
theorem runProvisioning_append (xs ys : List ProvisionerI) (force : Bool)
    (w : Ws) :
    runProvisioning (xs ++ ys) force w =
      ((runProvisioning xs force w).1 ++
        (runProvisioning ys force (runProvisioning xs force w).2).1,
       (runProvisioning ys force (runProvisioning xs force w).2).2) := by
  induction xs generalizing w with
  | nil => simp [runProvisioning]
  | cons p ps ih =>
    simp only [List.cons_append, runProvisioning, List.append_eq]
    rw [ih]
    simp [List.append_assoc]

/-- A single enabled, always-throwing provisioner at the head contributes
no paths: the caught exception only leaves whatever state mutation its
execute made before throwing, and iteration continues. -/
theorem runProvisioning_cons_throw (t : ProvisionerI)
    (post : List ProvisionerI) (force : Bool) (v : Ws)
    (he : t.enabled = true)
    (ht : (t.execute force v).1 = Except.error ()) :
    runProvisioning (t :: post) force v =
      runProvisioning post force (t.execute force v).2 := by
  rcases hx : t.execute force v with ⟨r, w2⟩
  rw [hx] at ht
  simp only at ht
  subst ht
  simp [runProvisioning, provStep, he, hx]

-- ============================================================
-- Claim theorems
-- ============================================================

/-- Claim C1 (code_bug evaluation): on an empty workspace root with all
provisioners enabled and default configuration, one `runOnStartup` call
over the registered list reports only `[".gitignore", ".prettierrc",
".prettierignore", ".editorconfig"]` — not the six paths plus dictionary
the claim states — although the spell-checker config and dictionary
files ARE created with their default contents (their paths are lost
because the source method never returns its `createdFiles`), while
`.vscode/settings.json` is never created at all (the undeclared `force`
read).  A second call produces an empty change set and leaves the
workspace unchanged. -/
theorem C1_startup_run_eval :
    (runOnStartup {} wEmpty).1 =
      [".gitignore", ".prettierrc", ".prettierignore", ".editorconfig"] ∧
    fsRead (runOnStartup {} wEmpty).2.fs ".prettierrc" =
      some STANDARD_PRETTIER_RC_TEXT ∧
    fsRead (runOnStartup {} wEmpty).2.fs ".prettierignore" =
      some STANDARD_PRETTIER_IGNORE_TEXT ∧
    fsRead (runOnStartup {} wEmpty).2.fs ".editorconfig" =
      some STANDARD_EDITOR_CONFIG_TEXT ∧
    fsRead (runOnStartup {} wEmpty).2.fs ".gitignore" =
      some STANDARD_GITIGNORE_TEXT ∧
    fsRead (runOnStartup {} wEmpty).2.fs ".vscode/settings.json" = none ∧
    fsRead (runOnStartup {} wEmpty).2.fs "cspell.json" =
      some CSPELL_DEFAULT_TEXT ∧
    fsRead (runOnStartup {} wEmpty).2.fs ".cspell/salesforce-terms.txt" =
      some SALESFORCE_TERMS ∧
    (runOnStartup {} (runOnStartup {} wEmpty).2).1 = [] ∧
    (runOnStartup {} (runOnStartup {} wEmpty).2).2 = (runOnStartup {} wEmpty).2 :=
  ⟨rfl, rfl, rfl, rfl, rfl, rfl, rfl, rfl, rfl, rfl⟩

/-- Claim C3 (code_bug evaluation): double execution with force = false
on an empty root.  The formatter, editor-config and git-ignore
provisioners do return a non-empty path list first and an empty one
second; but the workspace-settings provisioner returns an EMPTY list
already on the first call (its body faults on the undeclared `force` and
falls through to `return []`), and the spell-checker provisioner returns
undefined on both calls (its accumulated `createdFiles` is never
returned), contradicting the claim for those two provisioners. -/
theorem C3_idempotence_eval :
    (prettierExecute {} false wEmpty).1 =
      Except.ok (some [".prettierrc", ".prettierignore"]) ∧
    (prettierExecute {} false (prettierExecute {} false wEmpty).2).1 =
      Except.ok (some []) ∧
    (editorConfigExecute {} false wEmpty).1 =
      Except.ok (some [".editorconfig"]) ∧
    (editorConfigExecute {} false (editorConfigExecute {} false wEmpty).2).1 =
      Except.ok (some []) ∧
    (gitIgnoreExecute false wEmpty).1 = Except.ok (some [".gitignore"]) ∧
    (gitIgnoreExecute false (gitIgnoreExecute false wEmpty).2).1 =
      Except.ok (some []) ∧
    (vsCodeSettingsExecute {} false wEmpty).1 = Except.ok (some []) ∧
    (vsCodeSettingsExecute {} false
        (vsCodeSettingsExecute {} false wEmpty).2).1 = Except.ok (some []) ∧
    (spellCheckerExecute false wEmpty).1 = Except.ok none ∧
    (spellCheckerExecute false (spellCheckerExecute false wEmpty).2).1 =
      Except.ok none :=
  ⟨rfl, rfl, rfl, rfl, rfl, rfl, rfl, rfl, rfl, rfl⟩

/-- Claim C4: for any registration list split around one enabled
provisioner whose execute always throws, a single orchestrator run still
runs the whole suffix (from the state the throwing execute left behind),
completes normally, and aggregates exactly the paths of the prefix and
suffix runs — the throwing provisioner contributes none. -/
theorem runProvisioning_fault_isolation (pre post : List ProvisionerI)
    (t : ProvisionerI) (force : Bool) (w : Ws)
    (he : t.enabled = true)
    (ht : ∀ v, (t.execute force v).1 = Except.error ()) :
    runProvisioning (pre ++ t :: post) force w =
      ((runProvisioning pre force w).1 ++
        (runProvisioning post force
          (t.execute force (runProvisioning pre force w).2).2).1,
       (runProvisioning post force
          (t.execute force (runProvisioning pre force w).2).2).2) := by
  rw [runProvisioning_append]
  rw [runProvisioning_cons_throw t post force (runProvisioning pre force w).2
    he (ht (runProvisioning pre force w).2)]

/-- Witness for C4 at a concrete three-provisioner list whose middle
member always throws. -/
theorem C4_witness :
    runProvisioning [provA, provThrow, provC] false wEmpty =
      ((runProvisioning [provA] false wEmpty).1 ++
        (runProvisioning [provC] false
          (provThrow.execute false
            (runProvisioning [provA] false wEmpty).2).2).1,
       (runProvisioning [provC] false
          (provThrow.execute false
            (runProvisioning [provA] false wEmpty).2).2).2) :=
  runProvisioning_fault_isolation [provA] [provC] provThrow false wEmpty
    rfl (fun _ => rfl)

/-- A persisted state whose passed flag is stored `false` never takes the
freshness fast path. -/
theorem startupFastPath_cleared (window : Int) (gs : GlobalState)
    (now : Int) (h : gs.envCheckPassed = some false) :
    startupFastPath window gs now = false := by
  unfold startupFastPath
  rw [h]
  rfl

/-- Claim C5 (counterexample): with an always-failing Process Runner, the
CLI probe's failure record carries NO `valid` property (in particular not
`valid = false`), and the package probe's failure record carries no error
message at all — refuting the claimed uniform
`installed = false, valid = false, error non-empty` shape. -/
theorem C5_counterexample :
    (checkSalesforceCLI failRunner).valid = none ∧
    (checkSalesforceCLI failRunner).valid ≠ some false ∧
    (checkPackages failRunner).error = none :=
  ⟨rfl, by decide, rfl⟩

/-- Claim C5 (amended): no probe throws on a failing command, but the
record shapes differ: the Java and Node probes return
`installed = false, valid = false` with the error message; the CLI probe
returns `installed = false` with the error message and no `valid`
property; the plugin-set probe returns every required plugin as missing
together with the error message; the package-set probe re-parses the
failure text and returns a package status carrying no error property. -/
theorem C5_probe_failure_amended (run : Runner) (msg : String)
    (hmsg : msg ≠ "")
    (hrun : ∀ c, run c = ExecOutcome.failure msg none none) :
    checkJava run =
      { installed := false, valid := some false, error := some msg } ∧
    checkNodeJS run =
      { installed := false, valid := some false, error := some msg } ∧
    checkSalesforceCLI run = { installed := false, error := some msg } ∧
    checkPlugins run =
      { installed := [], missing := REQUIRED_SF_PLUGINS,
        allInstalled := false, error := some msg } ∧
    checkPackages run = parsePackageOutput msg ∧
    (checkPackages run).error = none ∧
    msg ≠ "" := by
  refine ⟨?_, ?_, ?_, ?_, ?_, ?_, hmsg⟩ <;>
    simp [checkJava, checkNodeJS, checkSalesforceCLI, checkPlugins,
      checkPackages, execCommand, parsePackageOutput, hrun]

/-- Witness for the amended C5 at the concrete always-failing runner. -/
theorem C5_witness :
    checkJava failRunner =
      { installed := false, valid := some false, error := some "boom" } ∧
    checkNodeJS failRunner =
      { installed := false, valid := some false, error := some "boom" } ∧
    checkSalesforceCLI failRunner =
      { installed := false, error := some "boom" } ∧
    checkPlugins failRunner =
      { installed := [], missing := REQUIRED_SF_PLUGINS,
        allInstalled := false, error := some "boom" } ∧
    checkPackages failRunner = parsePackageOutput "boom" ∧
    (checkPackages failRunner).error = none ∧
    ("boom" : String) ≠ "" :=
  C5_probe_failure_amended failRunner "boom" (by decide) (fun _ => rfl)

/-- Claim C6 (code_bug evaluation): on an existing `cspell.json` equal to
`c6Pre ++ CSPELL_BAD_REGEX ++ c6Suf` with `force = false`, the
provisioner rewrites exactly the legacy literal in place with the
corrected literal (all surrounding bytes unchanged) and internally
records the `cspell.json (migrated)` entry — but the source `execute`
never returns its `createdFiles`, so the call resolves to undefined and
no `cspell.json (migrated)` entry appears in any returned sequence. -/
theorem C6_migration_eval :
    fsRead (spellCheckerExecute false { hasRoot := true, fs := c6Fs }).2.fs
        "cspell.json" = some (c6Pre ++ CSPELL_GOOD_REGEX ++ c6Suf) ∧
    (spellCheckerCore false c6Fs).1 = ["cspell.json (migrated)"] ∧
    (spellCheckerExecute false { hasRoot := true, fs := c6Fs }).1 =
      Except.ok none :=
  ⟨rfl, rfl, rfl⟩

/-- Claim C7 (counterexample): when the Java command succeeds with output
`foo`, which matches no version pattern, the Java probe reports
`installed = false` with no version — not `installed = true` with
version `unknown` as the claim states for every version probe. -/
theorem C7_counterexample :
    checkJava fooRunner = { installed := false, valid := some false } ∧
    (checkJava fooRunner).installed ≠ true ∧
    (checkJava fooRunner).version ≠ some "unknown" :=
  ⟨rfl, by decide, by decide⟩

/-- Claim C7 (amended): a successful probe command whose output misses
the version pattern is handled differently by the two version probes:
the Salesforce CLI probe reports `installed = true` with version
`unknown` (and the trimmed raw output), while the Java probe reports
`installed = false, valid = false`. -/
theorem C7_version_unknown_amended (outJ outC : String)
    (hj : scanJavaVersion outJ.data = none)
    (hc : scanCliVersion outC.data = none) :
    checkJava (fun _ => ExecOutcome.success outJ "") =
      { installed := false, valid := some false } ∧
    checkSalesforceCLI (fun _ => ExecOutcome.success outC "") =
      { installed := true, version := some "unknown",
        output := some (jsTrim outC) } := by
  constructor
  · simp [checkJava, hj]
  · simp [checkSalesforceCLI, hc]

/-- Witness for the amended C7 at concrete non-matching outputs. -/
theorem C7_witness :
    checkJava (fun _ => ExecOutcome.success "foo" "") =
      { installed := false, valid := some false } ∧
    checkSalesforceCLI (fun _ => ExecOutcome.success "foo" "") =
      { installed := true, version := some "unknown",
        output := some (jsTrim "foo") } :=
  C7_version_unknown_amended "foo" "foo" rfl rfl

/-- Claim C8 (counterexample): for probe text consisting solely of the
alternative package name, the requirement is satisfied — but through
plain substring containment, recorded under the plain
`prettier-plugin-apex` label; the `prettier-plugin-apex (alternative)`
label is not produced. -/
theorem C8_counterexample :
    parsePackageOutput "@ilyamatsuev/prettier-plugin-apex" =
      { installed := ["prettier", "prettier-plugin-apex"],
        missing := ["@salesforce/cli", "@prettier/plugin-xml"],
        allInstalled := false } ∧
    (parsePackageOutput "@ilyamatsuev/prettier-plugin-apex").installed.contains
        "prettier-plugin-apex (alternative)" = false :=
  ⟨rfl, rfl⟩

/-- Claim C8 (amended): any probe text containing
`@ilyamatsuev/prettier-plugin-apex` also contains `prettier-plugin-apex`
as a substring, so the requirement is always already satisfied by the
plain containment loop: the package never appears in `missing` (hence
never affects `allInstalled`), it is recorded in `installed` under the
plain label, and the alias branch is unreachable — the `(alternative)`
label is never produced. -/
theorem C8_alias_amended (stdout : String)
    (h : strIncludes stdout "@ilyamatsuev/prettier-plugin-apex" = true) :
    (parsePackageOutput stdout).missing.contains "prettier-plugin-apex" =
      false ∧
    (parsePackageOutput stdout).installed.contains "prettier-plugin-apex" =
      true ∧
    (parsePackageOutput stdout).installed.contains
        "prettier-plugin-apex (alternative)" = false := by
  have hsplit :
      ("@ilyamatsuev/prettier-plugin-apex" : String).data =
        ("@ilyamatsuev/" : String).data ++
          ("prettier-plugin-apex" : String).data := by rfl
  have hap : strIncludes stdout "prettier-plugin-apex" = true := by
    have h2 := h
    unfold strIncludes at h2
    rw [hsplit] at h2
    exact containsSub_append_right _ _ _ h2
  have hsplit2 :
      ("prettier-plugin-apex" : String).data =
        ("prettier" : String).data ++ ("-plugin-apex" : String).data := by rfl
  have hpr : strIncludes stdout "prettier" = true := by
    have h2 := hap
    unfold strIncludes at h2
    rw [hsplit2] at h2
    exact containsSub_append_left _ _ _ h2
  cases h1 : strIncludes stdout "@salesforce/cli" <;>
  cases h3 : strIncludes stdout "@prettier/plugin-xml" <;>
    simp [parsePackageOutput, partitionRequired, REQUIRED_PACKAGES, h1, h3,
      hap, hpr]

/-- Witness for the amended C8 at the alternative-only probe text. -/
theorem C8_witness :
    (parsePackageOutput "@ilyamatsuev/prettier-plugin-apex").missing.contains
        "prettier-plugin-apex" = false ∧
    (parsePackageOutput "@ilyamatsuev/prettier-plugin-apex").installed.contains
        "prettier-plugin-apex" = true ∧
    (parsePackageOutput "@ilyamatsuev/prettier-plugin-apex").installed.contains
        "prettier-plugin-apex (alternative)" = false :=
  C8_alias_amended "@ilyamatsuev/prettier-plugin-apex" (by decide)

/-- Claim C9: whenever persisted state holds `envCheckPassed = true` with
a nonzero timestamp within the freshness window of the current time,
`runStartupCheck` opens no interactive prompt or notification and writes
no state: it returns the silently re-probed result, the persisted state
unchanged, and an empty trace. -/
theorem C9_freshness_no_prompt (window : Int) (gs : GlobalState)
    (now ts : Int) (probes : HealthResults) (checkNow : Bool)
    (hp : gs.envCheckPassed = some true)
    (ht : gs.envCheckTimestamp = some ts)
    (ht0 : ts ≠ 0) (hfresh : now - ts < window) :
    runStartupCheck window gs now probes checkNow = (probes, gs, []) := by
  have hfp : startupFastPath window gs now = true := by
    unfold startupFastPath
    rw [hp, ht]
    simp [truthyOB, ht0, hfresh]
  simp [runStartupCheck, hfp, runHealthCheckM]

/-- Witness for C9 at a concrete fresh passed state. -/
theorem C9_witness :
    runStartupCheck 1000 gsFresh 200 warnOnlyResults false =
      (warnOnlyResults, gsFresh, []) :=
  C9_freshness_no_prompt 1000 gsFresh 200 100 warnOnlyResults false rfl rfl
    (by decide) (by decide)

/-- Claim C10 (counterexample): two failure modes.  With fresh passed
state the freshness fast path performs no write at all even though the
silent probe reports a warning, so `envCheckPassed` is not cleared; and
on a first run (no completed check on record) with a warnings-only
result, `envCheckCompleted` IS changed — set to true — rather than left
unchanged as the claim states. -/
theorem C10_counterexample :
    (runStartupCheck 1000 gsFresh 200 warnOnlyResults false).2.1 = gsFresh ∧
    gsFresh.envCheckPassed = some true ∧
    hasWarnings warnOnlyResults = true ∧
    (runStartupCheck 1000 {} 5 warnOnlyResults false).2.1.envCheckCompleted =
      some true ∧
    ({} : GlobalState).envCheckCompleted = none :=
  ⟨rfl, rfl, rfl, rfl, rfl⟩

/-- Claim C10 (amended): outside the freshness fast path (which performs
no writes at all), whenever the silent probe reports any critical issue
or any warning, `runStartupCheck` places the `envCheckPassed := false`
write FIRST in its trace — before any interactive prompt — never writes
the timestamp on that branch (the final timestamp equals the stored
one), and thereby disables the fast path for every later startup; the
completed-once marker is unchanged when a completed check was already on
record, but on a first run it is set to true after the full visible
check. -/
theorem C10_state_writes_amended (window : Int) (gs : GlobalState)
    (now : Int) (probes : HealthResults) (checkNow : Bool)
    (hslow : startupFastPath window gs now = false)
    (hbad : (hasCriticalIssues probes || hasWarnings probes) = true) :
    (runStartupCheck window gs now probes checkNow).2.2.head? =
      some (TraceItem.write StateKey.envCheckPassed (StateVal.bv false)) ∧
    (∀ v, TraceItem.write StateKey.envCheckTimestamp v ∉
      (runStartupCheck window gs now probes checkNow).2.2) ∧
    (runStartupCheck window gs now probes checkNow).2.1.envCheckTimestamp =
      gs.envCheckTimestamp ∧
    (truthyOB gs.envCheckCompleted = true →
      (runStartupCheck window gs now probes checkNow).2.1.envCheckCompleted =
        gs.envCheckCompleted ∧
      ∀ v, TraceItem.write StateKey.envCheckCompleted v ∉
        (runStartupCheck window gs now probes checkNow).2.2) ∧
    (∀ w' n',
      startupFastPath w'
        (runStartupCheck window gs now probes checkNow).2.1 n' = false) := by
  cases hcomp : truthyOB gs.envCheckCompleted <;>
  cases hcrit : hasCriticalIssues probes <;>
  cases checkNow <;>
    simp_all [runStartupCheck, runHealthCheckM, startupFastPath_cleared]

/-- Witness for the amended C10 on a first run with a warnings-only
result. -/
theorem C10_witness :
    (runStartupCheck 1000 {} 5 warnOnlyResults false).2.2.head? =
      some (TraceItem.write StateKey.envCheckPassed (StateVal.bv false)) ∧
    (∀ v, TraceItem.write StateKey.envCheckTimestamp v ∉
      (runStartupCheck 1000 {} 5 warnOnlyResults false).2.2) ∧
    (runStartupCheck 1000 {} 5 warnOnlyResults false).2.1.envCheckTimestamp =
      ({} : GlobalState).envCheckTimestamp ∧
    (truthyOB ({} : GlobalState).envCheckCompleted = true →
      (runStartupCheck 1000 {} 5 warnOnlyResults false).2.1.envCheckCompleted =
        ({} : GlobalState).envCheckCompleted ∧
      ∀ v, TraceItem.write StateKey.envCheckCompleted v ∉
        (runStartupCheck 1000 {} 5 warnOnlyResults false).2.2) ∧
    (∀ w' n',
      startupFastPath w'
        (runStartupCheck 1000 {} 5 warnOnlyResults false).2.1 n' = false) :=
  C10_state_writes_amended 1000 {} 5 warnOnlyResults false (by decide)
    (by decide)
